import Mathlib

/-
Verification of `clone-themes.py`: a four-step setup script
(clone a WordPress repo, copy its default themes into `./themes`
skipping existing entries, delete the temporary clone, fix permissions
through zsh), with top-level exception handling.

The shallow embedding models the local filesystem state touched by the
script (the temporary clone directory `temp-wp` and the destination
directory `themes`), the environment (availability and exit status of the
external tools `git` and `/bin/zsh`), the messages printed, and Python's
exception flow: `subprocess.run(..., check=True)` raises
`CalledProcessError` on a non-zero exit status and `FileNotFoundError`
when the executable cannot be found; `Path.iterdir` on a missing path and
`shutil.rmtree` on a missing path raise `FileNotFoundError`;
`Path.iterdir` through a non-directory raises `NotADirectoryError`
(caught only by the generic `except Exception` handler).
-/

namespace CloneThemes

/-- A directory entry: a file carries its content and metadata
(`shutil.copy2` preserves both), a directory carries its children
(name, entry) in iteration order. -/
inductive FSEntry where
  | file (content : String) (meta : Nat)
  | dir (children : List (String × FSEntry))

/-- The listing of a directory: entries keyed by name. -/
abbrev FSDir := List (String × FSEntry)

/-- Name lookup in a directory listing, the model of `Path.exists` on
`THEMES_TARGET / item.name` and of resolving one path component. -/
def findEntry (name : String) : FSDir → Option FSEntry
  | [] => none
  | e :: es => if e.1 = name then some e.2 else findEntry name es

/-- The effect of copying one source entry to a fresh destination name:
`shutil.copytree` for a directory (recursive and complete),
`shutil.copy2` for a file (content and metadata preserved). -/
def copyEntry : FSEntry → FSEntry
  | FSEntry.dir c => FSEntry.dir c
  | FSEntry.file c m => FSEntry.file c m

/-- The exception classes distinguished by `main`'s handlers. -/
inductive PyErr where
  | calledProcessError
  | fileNotFoundError
  | otherError
deriving DecidableEq

/-- The messages the script prints, abstracted to their prefixes. -/
inductive Msg where
  | cloning
  | copying
  | skipping (name : String)
  | removingTemp
  | fixingPerms
  | permsFixed
  | allDone
  | cmdFailed
  | missingTool
  | unexpectedError
deriving DecidableEq

/-- The environment of one run: availability and behaviour of the
external tools, and the tree `git clone` would produce at `temp-wp`. -/
structure Env where
  gitPresent : Bool
  cloneExitZero : Bool
  clonedTemp : FSDir
  zshPresent : Bool
  permCmdExitZero : Bool

/-- The filesystem and output state of one run: contents of the
temporary directory and of the destination directory (`none` when the
directory does not exist), whether the permission-fix command has been
applied to the destination, and the log of printed messages. -/
structure St where
  temp : Option FSDir
  themes : Option FSDir
  themesPermsFixed : Bool
  log : List Msg

/-- The fixed remote URL (`WP_REPO` in the source). -/
def WP_REPO : String := "https://github.com/WordPress/WordPress.git"

/-- The fixed temporary path (`TEMP_DIR` in the source). -/
def TEMP_DIR : String := "temp-wp"

/-- The fixed destination path (`THEMES_TARGET` in the source). -/
def THEMES_TARGET : String := "themes"

/-- `clone_wordpress_repo`: print, then
`subprocess.run(["git", "clone", "--depth=1", WP_REPO, TEMP_DIR], check=True)`.
A missing `git` binary raises `FileNotFoundError`; a non-zero exit
(`git clone` refuses a non-empty existing destination, and removes the
directory it created when the clone fails) raises `CalledProcessError`. -/
def clone_wordpress_repo (env : Env) (s : St) : St × Option PyErr :=
  let s1 : St := { s with log := s.log ++ [Msg.cloning] }
  if env.gitPresent then
    match s.temp with
    | some (_ :: _) => (s1, some PyErr.calledProcessError)
    | _ =>
      if env.cloneExitZero then
        ({ s1 with temp := some env.clonedTemp }, none)
      else (s1, some PyErr.calledProcessError)
  else (s1, some PyErr.fileNotFoundError)

/-- One iteration of the loop in `copy_themes`: skip (with a notice) when
`dest.exists()`, otherwise copy the entry wholesale. The accumulator is
the destination listing so far together with the skip notices printed. -/
def copyStep (acc : FSDir × List Msg) (item : String × FSEntry) : FSDir × List Msg :=
  match findEntry item.1 acc.1 with
  | some _ => (acc.1, acc.2 ++ [Msg.skipping item.1])
  | none => (acc.1 ++ [(item.1, copyEntry item.2)], acc.2)

/-- Resolving `TEMP_DIR / "wp-content" / "themes"` for `Path.iterdir`:
a missing component raises `FileNotFoundError`, a file in the place of a
directory raises `NotADirectoryError` (modelled as `otherError`). -/
def resolveSourceThemes (temp : Option FSDir) : Except PyErr FSDir :=
  match temp with
  | none => Except.error PyErr.fileNotFoundError
  | some t =>
    match findEntry "wp-content" t with
    | none => Except.error PyErr.fileNotFoundError
    | some (FSEntry.file _ _) => Except.error PyErr.otherError
    | some (FSEntry.dir c) =>
      match findEntry "themes" c with
      | none => Except.error PyErr.fileNotFoundError
      | some (FSEntry.file _ _) => Except.error PyErr.otherError
      | some (FSEntry.dir themes) => Except.ok themes

/-- `copy_themes`: `THEMES_TARGET.mkdir(parents=True, exist_ok=True)`
(creating the destination exactly when it is missing, never an error),
then print, then iterate over the entries of the source themes directory,
skipping names that already exist at the destination and copying the
rest. Resolving the source happens only at `iterdir`, after `mkdir`. -/
def copy_themes (s : St) : St × Option PyErr :=
  let dest0 : FSDir := s.themes.getD []
  let s1 : St := { s with themes := some dest0, log := s.log ++ [Msg.copying] }
  match resolveSourceThemes s.temp with
  | Except.error e => (s1, some e)
  | Except.ok src =>
    let r := src.foldl copyStep (dest0, [])
    ({ s1 with themes := some r.1, log := s1.log ++ r.2 }, none)

/-- `clean_temp`: print, then `shutil.rmtree(TEMP_DIR)`, which raises
`FileNotFoundError` when the directory does not exist. -/
def clean_temp (s : St) : St × Option PyErr :=
  let s1 : St := { s with log := s.log ++ [Msg.removingTemp] }
  match s.temp with
  | none => (s1, some PyErr.fileNotFoundError)
  | some _ => ({ s1 with temp := none }, none)

/-- `fix_theme_permissions`: print, then
`subprocess.run(cmd, shell=True, check=True, executable="/bin/zsh")`.
A missing `/bin/zsh` raises `FileNotFoundError` (the failed `exec` in the
child is re-raised in the parent); a non-zero exit raises
`CalledProcessError`; on success the ownership/permission change is
applied to the destination and a confirmation is printed. -/
def fix_theme_permissions (env : Env) (s : St) : St × Option PyErr :=
  let s1 : St := { s with log := s.log ++ [Msg.fixingPerms] }
  if env.zshPresent then
    if env.permCmdExitZero then
      ({ s1 with themesPermsFixed := true, log := s1.log ++ [Msg.permsFixed] }, none)
    else (s1, some PyErr.calledProcessError)
  else (s1, some PyErr.fileNotFoundError)

/-- The message each handler in `main` prints: `CalledProcessError` is
matched first, then `FileNotFoundError`, then any other `Exception`. -/
def handleMsg : PyErr → Msg
  | PyErr.calledProcessError => Msg.cmdFailed
  | PyErr.fileNotFoundError => Msg.missingTool
  | PyErr.otherError => Msg.unexpectedError

/-- A caught exception is only logged, never re-raised. -/
def handleErr (s : St) (e : PyErr) : St :=
  { s with log := s.log ++ [handleMsg e] }

/-- Sequencing under exceptions: when the first statement raised, the
next statement never runs and the exception propagates. -/
def andThen (r : St × Option PyErr) (f : St → St × Option PyErr) : St × Option PyErr :=
  match r with
  | (s1, some e) => (s1, some e)
  | (s1, none) => f s1

/-- The `try` body of `main`: the four steps in sequence, aborting at the
first exception; on full success the final confirmation is printed. -/
def runSteps (env : Env) (s : St) : St × Option PyErr :=
  andThen (clone_wordpress_repo env s) fun s1 =>
  andThen (copy_themes s1) fun s2 =>
  andThen (clean_temp s2) fun s3 =>
  andThen (fix_theme_permissions env s3) fun s4 =>
  ({ s4 with log := s4.log ++ [Msg.allDone] }, none)

/-- `main`: run the steps under the three handlers; every modelled
exception is caught and logged, and the process exit status (the second
component) is zero in every case. -/
def main_run (env : Env) (s : St) : St × Nat :=
  match runSteps env s with
  | (sf, none) => (sf, 0)
  | (sf, some e) => (handleErr sf e, 0)

/-! Lemmas about name lookup and the copy loop. -/

theorem findEntry_append_some {k : String} {v : FSEntry} {l l2 : FSDir}
    (h : findEntry k l = some v) : findEntry k (l ++ l2) = some v := by
  induction l with
  | nil => simp [findEntry] at h
  | cons a t ih =>
    by_cases hk : a.1 = k
    · simpa [findEntry, hk] using h
    · simp only [findEntry, hk, if_false, List.cons_append] at h ⊢
      exact ih h

theorem findEntry_append_none {k : String} {l l2 : FSDir}
    (h : findEntry k l = none) : findEntry k (l ++ l2) = findEntry k l2 := by
  induction l with
  | nil => simp
  | cons a t ih =>
    by_cases hk : a.1 = k
    · simp [findEntry, hk] at h
    · simp only [findEntry, hk, if_false, List.cons_append] at h ⊢
      exact ih h

theorem copyFold_preserves {k : String} {v : FSEntry} :
    ∀ (src d : FSDir) (m : List Msg), findEntry k d = some v →
      findEntry k (src.foldl copyStep (d, m)).1 = some v := by
  intro src
  induction src with
  | nil => intro d m h; simpa using h
  | cons a t ih =>
    intro d m h
    simp only [List.foldl_cons]
    cases hf : findEntry a.1 d with
    | some w => simp only [copyStep, hf]; exact ih d _ h
    | none => simp only [copyStep, hf]; exact ih _ m (findEntry_append_some h)

theorem copyFold_log_mono :
    ∀ (src d : FSDir) (m : List Msg),
      ∃ m2, (src.foldl copyStep (d, m)).2 = m ++ m2 := by
  intro src
  induction src with
  | nil => intro d m; exact ⟨[], by simp⟩
  | cons a t ih =>
    intro d m
    simp only [List.foldl_cons]
    cases hf : findEntry a.1 d with
    | some w =>
      simp only [copyStep, hf]
      obtain ⟨m2, hm2⟩ := ih d (m ++ [Msg.skipping a.1])
      exact ⟨Msg.skipping a.1 :: m2, by simp [hm2]⟩
    | none =>
      simp only [copyStep, hf]
      exact ih _ m

theorem copyFold_skip {k : String} {e v : FSEntry} :
    ∀ (src d : FSDir) (m : List Msg), (k, e) ∈ src →
      findEntry k d = some v →
      Msg.skipping k ∈ (src.foldl copyStep (d, m)).2 := by
  intro src
  induction src with
  | nil => intro d m hm _; exact absurd hm (List.not_mem_nil _)
  | cons a t ih =>
    intro d m hm hd
    simp only [List.foldl_cons]
    rcases List.mem_cons.mp hm with heq | hmem
    · subst heq
      simp only [copyStep, hd]
      obtain ⟨m2, hm2⟩ := copyFold_log_mono t d (m ++ [Msg.skipping k])
      rw [hm2]
      simp
    · cases hf : findEntry a.1 d with
      | some w => simp only [copyStep, hf]; exact ih d _ hmem hd
      | none =>
        simp only [copyStep, hf]
        exact ih _ m hmem (findEntry_append_some hd)

theorem copyFold_new {k : String} {e : FSEntry} :
    ∀ (src d : FSDir) (m : List Msg),
      (src.map Prod.fst).Nodup → (k, e) ∈ src → findEntry k d = none →
      findEntry k (src.foldl copyStep (d, m)).1 = some (copyEntry e) := by
  intro src
  induction src with
  | nil => intro d m _ hm _; exact absurd hm (List.not_mem_nil _)
  | cons a t ih =>
    intro d m hnd hm hd
    simp only [List.foldl_cons]
    have hnd2 : a.1 ∉ t.map Prod.fst ∧ (t.map Prod.fst).Nodup := by
      rw [List.map_cons, List.nodup_cons] at hnd
      exact hnd
    rcases List.mem_cons.mp hm with heq | hmem
    · subst heq
      simp only [copyStep, hd]
      apply copyFold_preserves
      rw [findEntry_append_none hd]
      simp [findEntry]
    · have hk : k ∈ t.map Prod.fst := List.mem_map.mpr ⟨(k, e), hmem, rfl⟩
      have hne : a.1 ≠ k := fun hkeq => hnd2.1 (hkeq ▸ hk)
      cases hf : findEntry a.1 d with
      | some w => simp only [copyStep, hf]; exact ih d _ hnd2.2 hmem hd
      | none =>
        simp only [copyStep, hf]
        apply ih _ m hnd2.2 hmem
        rw [findEntry_append_none hd]
        simp [findEntry, hne]

theorem copyEntry_eq_self (e : FSEntry) : copyEntry e = e := by
  cases e <;> rfl

/-- Claim C1: when the destination already holds an entry named X and the source
themes directory also holds an entry named X, the copy step leaves the
destination's X entirely unchanged (same entry value, hence same contents
and type) and only logs a skip notice for X. -/
theorem copy_skips_existing (s : St) (X : String) (v e : FSEntry) (src : FSDir)
    (hres : resolveSourceThemes s.temp = Except.ok src)
    (hmem : (X, e) ∈ src)
    (hX : findEntry X (s.themes.getD []) = some v) :
    ∃ d2, ((copy_themes s).1).themes = some d2 ∧ findEntry X d2 = some v ∧
      Msg.skipping X ∈ ((copy_themes s).1).log := by
  simp only [copy_themes, hres]
  refine ⟨_, rfl, copyFold_preserves src _ [] hX, ?_⟩
  have := copyFold_skip src (s.themes.getD []) [] hmem hX
  simp [this]

/-- Claim C2: when the destination holds no entry named Y and the source themes
directory holds an entry (Y, e), the copy step produces a destination
entry named Y equal to the source entry e (directories are copied whole,
files keep content and metadata). -/
theorem copy_new_entry (s : St) (Y : String) (e : FSEntry) (src : FSDir)
    (hres : resolveSourceThemes s.temp = Except.ok src)
    (hnd : (src.map Prod.fst).Nodup)
    (hmem : (Y, e) ∈ src)
    (hY : findEntry Y (s.themes.getD []) = none) :
    ∃ d2, ((copy_themes s).1).themes = some d2 ∧ findEntry Y d2 = some e := by
  simp only [copy_themes, hres]
  refine ⟨_, rfl, ?_⟩
  rw [copyFold_new src _ [] hnd hmem hY, copyEntry_eq_self]

/-! Lemmas about the individual steps and the sequencing. -/

theorem andThen_err {s : St} {e : PyErr} {f : St → St × Option PyErr} :
    andThen (s, some e) f = (s, some e) := rfl

theorem andThen_ok {s : St} {f : St → St × Option PyErr} :
    andThen (s, none) f = f s := rfl

theorem clone_themes_unchanged (env : Env) (s : St) :
    ((clone_wordpress_repo env s).1).themes = s.themes := by
  unfold clone_wordpress_repo
  cases hg : env.gitPresent <;> cases hc : env.cloneExitZero <;>
    rcases ht : s.temp with _ | (_ | ⟨a, t⟩) <;> rfl

theorem clone_flag_unchanged (env : Env) (s : St) :
    ((clone_wordpress_repo env s).1).themesPermsFixed = s.themesPermsFixed := by
  unfold clone_wordpress_repo
  cases hg : env.gitPresent <;> cases hc : env.cloneExitZero <;>
    rcases ht : s.temp with _ | (_ | ⟨a, t⟩) <;> rfl

theorem clone_fail_temp (env : Env) (s : St) :
    (clone_wordpress_repo env s).2.isSome = true →
    ((clone_wordpress_repo env s).1).temp = s.temp := by
  unfold clone_wordpress_repo
  cases hg : env.gitPresent <;> cases hc : env.cloneExitZero <;>
    rcases ht : s.temp with _ | (_ | ⟨a, t⟩) <;> intro h <;>
    first | rfl | simp at h

theorem copy_temp_unchanged (s : St) :
    ((copy_themes s).1).temp = s.temp := by
  unfold copy_themes
  cases h : resolveSourceThemes s.temp <;> rfl

theorem copy_flag_unchanged (s : St) :
    ((copy_themes s).1).themesPermsFixed = s.themesPermsFixed := by
  unfold copy_themes
  cases h : resolveSourceThemes s.temp <;> rfl

theorem clean_themes_unchanged (s : St) :
    ((clean_temp s).1).themes = s.themes := by
  unfold clean_temp
  cases ht : s.temp <;> rfl

theorem clean_flag_unchanged (s : St) :
    ((clean_temp s).1).themesPermsFixed = s.themesPermsFixed := by
  unfold clean_temp
  cases ht : s.temp <;> rfl

theorem clean_ok_temp (s s3 : St) :
    clean_temp s = (s3, none) → s3.temp = none := by
  unfold clean_temp
  cases ht : s.temp <;> intro h
  · simp at h
  · injection h with h1 h2
    rw [← h1]

theorem fix_temp_unchanged (env : Env) (s : St) :
    ((fix_theme_permissions env s).1).temp = s.temp := by
  unfold fix_theme_permissions
  cases hz : env.zshPresent <;> cases hp : env.permCmdExitZero <;> rfl

theorem fix_themes_unchanged (env : Env) (s : St) :
    ((fix_theme_permissions env s).1).themes = s.themes := by
  unfold fix_theme_permissions
  cases hz : env.zshPresent <;> cases hp : env.permCmdExitZero <;> rfl

theorem fix_fail_flag (env : Env) (s : St) :
    (fix_theme_permissions env s).2.isSome = true →
    ((fix_theme_permissions env s).1).themesPermsFixed = s.themesPermsFixed := by
  unfold fix_theme_permissions
  cases hz : env.zshPresent <;> cases hp : env.permCmdExitZero <;> intro h <;>
    first | rfl | simp at h

/-- Claim C3: after every successful full run (all four steps completed without
raising), the temporary clone directory does not exist. -/
theorem success_removes_temp (env : Env) (s sf : St)
    (h : runSteps env s = (sf, none)) : sf.temp = none := by
  unfold runSteps at h
  rcases h1 : clone_wordpress_repo env s with ⟨s1, e1⟩
  rw [h1] at h
  cases e1 with
  | some e => simp [andThen_err] at h
  | none =>
    simp only [andThen_ok] at h
    rcases h2 : copy_themes s1 with ⟨s2, e2⟩
    rw [h2] at h
    cases e2 with
    | some e => simp [andThen_err] at h
    | none =>
      simp only [andThen_ok] at h
      rcases h3 : clean_temp s2 with ⟨s3, e3⟩
      rw [h3] at h
      cases e3 with
      | some e => simp [andThen_err] at h
      | none =>
        simp only [andThen_ok] at h
        rcases h4 : fix_theme_permissions env s3 with ⟨s4, e4⟩
        rw [h4] at h
        cases e4 with
        | some e => simp [andThen_err] at h
        | none =>
          simp only [andThen_ok] at h
          injection h with hf _
          have ht4 : s4.temp = s3.temp := by
            have := fix_temp_unchanged env s3
            rw [h4] at this
            exact this
          rw [← hf]
          show s4.temp = none
          rw [ht4]
          exact clean_ok_temp s2 s3 h3

/-- Claim C4: every modelled exception raised by a step is caught at the top
level and mapped to exactly one of three pairwise distinct message
prefixes according to its class, nothing is re-raised, and the process
exit status is zero whether or not a failure was caught. -/
theorem top_level_handling (env : Env) (s : St) :
    (main_run env s).2 = 0 ∧
    (∀ sf e, runSteps env s = (sf, some e) →
      (main_run env s).1.log = sf.log ++ [handleMsg e]) ∧
    handleMsg PyErr.calledProcessError = Msg.cmdFailed ∧
    handleMsg PyErr.fileNotFoundError = Msg.missingTool ∧
    handleMsg PyErr.otherError = Msg.unexpectedError ∧
    Msg.cmdFailed ≠ Msg.missingTool ∧ Msg.cmdFailed ≠ Msg.unexpectedError ∧
    Msg.missingTool ≠ Msg.unexpectedError := by
  refine ⟨?_, ?_, rfl, rfl, rfl, by decide, by decide, by decide⟩
  · unfold main_run
    rcases h : runSteps env s with ⟨sf, e⟩
    cases e <;> rfl
  · intro sf e h
    unfold main_run
    rw [h]
    rfl

/-- The filesystem-visible part of a run state: temporary directory,
destination directory, and whether the permission fix was applied. -/
def fsPart (s : St) : Option FSDir × Option FSDir × Bool :=
  (s.temp, s.themes, s.themesPermsFixed)

/-- Claim C5: execution is the single linear sequence fetch, copy, cleanup,
permission fix, with no retries and no rollback: the filesystem state
after `main` is exactly the one produced by the steps up to and including
the first failing step (later steps never run, earlier effects are kept),
and by all four steps when none fails. -/
theorem linear_no_rollback (env : Env) (s : St) :
    fsPart (main_run env s).1 =
      (if ((clone_wordpress_repo env s).2).isSome then
        fsPart (clone_wordpress_repo env s).1
      else if ((copy_themes (clone_wordpress_repo env s).1).2).isSome then
        fsPart (copy_themes (clone_wordpress_repo env s).1).1
      else if ((clean_temp (copy_themes (clone_wordpress_repo env s).1).1).2).isSome then
        fsPart (clean_temp (copy_themes (clone_wordpress_repo env s).1).1).1
      else
        fsPart (fix_theme_permissions env
          (clean_temp (copy_themes (clone_wordpress_repo env s).1).1).1).1) := by
  unfold main_run runSteps
  rcases h1 : clone_wordpress_repo env s with ⟨s1, e1⟩
  cases e1 with
  | some e => rfl
  | none =>
    simp only [andThen]
    rcases h2 : copy_themes s1 with ⟨s2, e2⟩
    cases e2 with
    | some e => rfl
    | none =>
      simp only [andThen]
      rcases h3 : clean_temp s2 with ⟨s3, e3⟩
      cases e3 with
      | some e => rfl
      | none =>
        simp only [andThen]
        rcases h4 : fix_theme_permissions env s3 with ⟨s4, e4⟩
        cases e4 <;> rfl

/-- Claim C7: when the version-control client binary is absent, the run prints
the missing-tool message and neither the destination directory nor the
temporary directory is modified in any way (in particular the destination
is not created). -/
theorem git_absent_keeps_destination (env : Env) (s : St)
    (hg : env.gitPresent = false) :
    Msg.missingTool ∈ (main_run env s).1.log ∧
    (main_run env s).1.themes = s.themes ∧
    (main_run env s).1.temp = s.temp := by
  have h1 : clone_wordpress_repo env s =
      ({ s with log := s.log ++ [Msg.cloning] }, some PyErr.fileNotFoundError) := by
    unfold clone_wordpress_repo
    rw [hg]
    rfl
  unfold main_run runSteps
  rw [h1, andThen_err]
  refine ⟨?_, rfl, rfl⟩
  simp [handleErr, handleMsg]

/-- Claim C9: the copy step creates the destination directory exactly when
it is missing (so it always exists afterwards), an existing destination is
never an error, and whether the step raises is independent of the initial
destination, so a missing destination never causes the copy step to
fail. -/
theorem copy_creates_destination (s : St) (t : Option FSDir) :
    ((copy_themes s).1).themes.isSome = true ∧
    (copy_themes { s with themes := t }).2 = (copy_themes s).2 := by
  constructor
  · unfold copy_themes
    cases h : resolveSourceThemes s.temp <;> rfl
  · unfold copy_themes
    have ht : ({ s with themes := t } : St).temp = s.temp := rfl
    rw [ht]
    cases h : resolveSourceThemes s.temp <;> rfl

/-- Claim C10: when the clone succeeded but the expected themes
subdirectory cannot be resolved in it (a file-not-found error), the run
reports the failure under the missing-required-tool message (not the
unexpected-error one), and the destination holds exactly its prior
contents, an empty directory having been created when it was missing. -/
theorem missing_source_is_missing_tool (env : Env) (s s1 : St)
    (h1 : clone_wordpress_repo env s = (s1, none))
    (hres : resolveSourceThemes s1.temp = Except.error PyErr.fileNotFoundError) :
    (main_run env s).1.log = s1.log ++ [Msg.copying, Msg.missingTool] ∧
    (main_run env s).1.themes = some (s.themes.getD []) := by
  have h2 : copy_themes s1 =
      ({ s1 with themes := some (s1.themes.getD []), log := s1.log ++ [Msg.copying] },
        some PyErr.fileNotFoundError) := by
    unfold copy_themes
    rw [hres]
  have hth : s1.themes = s.themes := by
    have h := clone_themes_unchanged env s
    rw [h1] at h
    exact h
  unfold main_run runSteps
  rw [h1]
  simp only [andThen]
  rw [h2]
  simp only [andThen]
  constructor
  · simp [handleErr, handleMsg]
  · simp [handleErr, hth]

/-- Claim C6 (amended): when the permission-fix shell is unavailable after
the first three steps succeeded, the temporary directory has already been
removed, the destination keeps exactly the contents produced by the copy
step, the permission state is unmodified, and the failure is reported with
the missing-required-tool message prefix (the interpreter raises a
file-not-found error for the absent shell executable). -/
theorem zsh_absent_after_cleanup (env : Env) (s s1 s2 s3 : St)
    (h1 : clone_wordpress_repo env s = (s1, none))
    (h2 : copy_themes s1 = (s2, none))
    (h3 : clean_temp s2 = (s3, none))
    (hz : env.zshPresent = false) :
    (main_run env s).1.temp = none ∧
    (main_run env s).1.themes = s2.themes ∧
    (main_run env s).1.themesPermsFixed = s.themesPermsFixed ∧
    Msg.missingTool ∈ (main_run env s).1.log := by
  have h4 : fix_theme_permissions env s3 =
      ({ s3 with log := s3.log ++ [Msg.fixingPerms] }, some PyErr.fileNotFoundError) := by
    unfold fix_theme_permissions
    rw [hz]
    rfl
  have ht3 : s3.temp = none := clean_ok_temp s2 s3 h3
  have hth3 : s3.themes = s2.themes := by
    have h := clean_themes_unchanged s2
    rw [h3] at h
    exact h
  have hfl3 : s3.themesPermsFixed = s.themesPermsFixed := by
    have a1 := clone_flag_unchanged env s
    rw [h1] at a1
    have a2 := copy_flag_unchanged s1
    rw [h2] at a2
    have a3 := clean_flag_unchanged s2
    rw [h3] at a3
    dsimp only at a1 a2 a3
    rw [a3, a2, a1]
  unfold main_run runSteps
  rw [h1]
  simp only [andThen]
  rw [h2]
  simp only [andThen]
  rw [h3]
  simp only [andThen]
  rw [h4]
  simp only [andThen]
  refine ⟨?_, ?_, ?_, ?_⟩ <;> simp [handleErr, handleMsg, ht3, hth3, hfl3]

/-- Claim C8 (amended): a fetch failure in a run that began without a
pre-existing temporary directory leaves no temporary directory behind,
and a permission-fix failure happens with the temporary directory already
removed and the copied themes still at the destination. -/
theorem no_cleanup_needed_on_failure (env : Env) (s : St) :
    (s.temp = none → ∀ s1 e, clone_wordpress_repo env s = (s1, some e) →
      (main_run env s).1.temp = none) ∧
    (∀ s1 s2 s3 s4 e, clone_wordpress_repo env s = (s1, none) →
      copy_themes s1 = (s2, none) → clean_temp s2 = (s3, none) →
      fix_theme_permissions env s3 = (s4, some e) →
      (main_run env s).1.temp = none ∧ (main_run env s).1.themes = s2.themes) := by
  constructor
  · intro ht s1 e h1
    have hfails : (clone_wordpress_repo env s).2.isSome = true := by
      rw [h1]
      rfl
    have hpres := clone_fail_temp env s hfails
    rw [h1] at hpres
    dsimp only at hpres
    have htemp : s1.temp = none := by
      rw [hpres, ht]
    unfold main_run runSteps
    rw [h1]
    simp only [andThen]
    exact htemp
  · intro s1 s2 s3 s4 e h1 h2 h3 h4
    have ht3 : s3.temp = none := clean_ok_temp s2 s3 h3
    have ht4 : s4.temp = none := by
      have h := fix_temp_unchanged env s3
      rw [h4] at h
      dsimp only at h
      rw [h, ht3]
    have hth4 : s4.themes = s2.themes := by
      have b1 := clean_themes_unchanged s2
      rw [h3] at b1
      have b2 := fix_themes_unchanged env s3
      rw [h4] at b2
      dsimp only at b1 b2
      rw [b2, b1]
    unfold main_run runSteps
    rw [h1]
    simp only [andThen]
    rw [h2]
    simp only [andThen]
    rw [h3]
    simp only [andThen]
    rw [h4]
    simp only [andThen]
    exact ⟨ht4, hth4⟩

/-! Concrete runs used as witnesses and counterexamples. -/

/-- A clone tree holding one theme `twentytwenty` under
`wp-content/themes`. -/
def wpTree : FSDir :=
  [("wp-content", FSEntry.dir [("themes", FSEntry.dir
    [("twentytwenty", FSEntry.file "style" 1)])])]

/-- A fresh initial state: no temporary directory, no destination, no
permission fix applied, nothing printed. -/
def st0 : St :=
  { temp := none, themes := none, themesPermsFixed := false, log := [] }

/-- Every tool available, clone succeeds with `wpTree`. -/
def envOk : Env :=
  { gitPresent := true, cloneExitZero := true, clonedTemp := wpTree,
    zshPresent := true, permCmdExitZero := true }

/-- Same as `envOk` but the version-control client binary is absent. -/
def envGitAbsent : Env :=
  { gitPresent := false, cloneExitZero := true, clonedTemp := wpTree,
    zshPresent := true, permCmdExitZero := true }

/-- Same as `envOk` but the permission-fix shell is absent. -/
def envZshAbsent : Env :=
  { gitPresent := true, cloneExitZero := true, clonedTemp := wpTree,
    zshPresent := false, permCmdExitZero := true }

/-- Clone succeeds but produces a tree without `wp-content/themes`. -/
def envEmptyClone : Env :=
  { gitPresent := true, cloneExitZero := true, clonedTemp := [],
    zshPresent := true, permCmdExitZero := true }

/-- The state after a successful fetch of `wpTree` from `st0`. -/
def st1W : St :=
  { temp := some wpTree, themes := none, themesPermsFixed := false,
    log := [Msg.cloning] }

/-- The state after the copy step from `st1W`. -/
def st2W : St :=
  { temp := some wpTree,
    themes := some [("twentytwenty", FSEntry.file "style" 1)],
    themesPermsFixed := false, log := [Msg.cloning, Msg.copying] }

/-- The state after the cleanup step from `st2W`. -/
def st3W : St :=
  { temp := none,
    themes := some [("twentytwenty", FSEntry.file "style" 1)],
    themesPermsFixed := false,
    log := [Msg.cloning, Msg.copying, Msg.removingTemp] }

/-- The state after the permission-fix step failed from `st3W`. -/
def st4W : St :=
  { temp := none,
    themes := some [("twentytwenty", FSEntry.file "style" 1)],
    themesPermsFixed := false,
    log := [Msg.cloning, Msg.copying, Msg.removingTemp, Msg.fixingPerms] }

/-- The state after a fully successful run from `st0` under `envOk`. -/
def stOkFinal : St :=
  { temp := none,
    themes := some [("twentytwenty", FSEntry.file "style" 1)],
    themesPermsFixed := true,
    log := [Msg.cloning, Msg.copying, Msg.removingTemp, Msg.fixingPerms,
      Msg.permsFixed, Msg.allDone] }

/-- The state after the fetch step failed from `st0` with `git` absent. -/
def stGitFail : St :=
  { temp := none, themes := none, themesPermsFixed := false,
    log := [Msg.cloning] }

/-- The state after a successful fetch from `st0` under `envEmptyClone`. -/
def stEmptyClone : St :=
  { temp := some [], themes := none, themesPermsFixed := false,
    log := [Msg.cloning] }

/-- A state whose destination and clone both hold `twentyseventeen`. -/
def stSkip : St :=
  { temp := some [("wp-content", FSEntry.dir [("themes", FSEntry.dir
      [("twentyseventeen", FSEntry.file "new" 2)])])],
    themes := some [("twentyseventeen", FSEntry.file "old" 1)],
    themesPermsFixed := false, log := [] }

/-- The source themes listing inside `stSkip`. -/
def srcSkip : FSDir := [("twentyseventeen", FSEntry.file "new" 2)]

/-- A state whose clone holds a theme directory absent from the
destination. -/
def stNew : St :=
  { temp := some [("wp-content", FSEntry.dir [("themes", FSEntry.dir
      [("twentytwenty", FSEntry.dir [("style.css", FSEntry.file "body" 3)])])])],
    themes := none, themesPermsFixed := false, log := [] }

/-- The source themes listing inside `stNew`. -/
def srcNew : FSDir :=
  [("twentytwenty", FSEntry.dir [("style.css", FSEntry.file "body" 3)])]

/-- A state with a stale non-empty temporary directory left over from an
earlier run. -/
def stStale : St :=
  { temp := some [("stale", FSEntry.file "junk" 0)], themes := none,
    themesPermsFixed := false, log := [] }

/-- Claim C8 counterexample: a run that starts with a stale non-empty
temporary directory has a failing fetch step (`git clone` refuses the
existing destination), yet the temporary directory still exists after the
run, since no step removes it on a fetch failure. -/
theorem stale_temp_counterexample :
    (clone_wordpress_repo envOk stStale).2.isSome = true ∧
    (main_run envOk stStale).1.temp ≠ none := by
  constructor
  · rfl
  · have h2 : (main_run envOk stStale).1.temp =
        some [("stale", FSEntry.file "junk" 0)] := rfl
    rw [h2]
    simp

/-- Claim C6 counterexample: with the permission-fix shell unavailable in
an otherwise successful run from a fresh state, cleanup has completed, yet
the failure is not reported with the command-failure prefix: the
missing-tool message is printed instead, because the missing shell
executable raises a file-not-found error. -/
theorem zsh_absent_message_counterexample :
    envZshAbsent.zshPresent = false ∧
    (main_run envZshAbsent st0).1.temp = none ∧
    Msg.missingTool ∈ (main_run envZshAbsent st0).1.log ∧
    Msg.cmdFailed ∉ (main_run envZshAbsent st0).1.log := by
  have hlog : (main_run envZshAbsent st0).1.log =
      [Msg.cloning, Msg.copying, Msg.removingTemp, Msg.fixingPerms,
        Msg.missingTool] := rfl
  refine ⟨rfl, rfl, ?_, ?_⟩ <;> rw [hlog] <;> decide

/-! Witnesses: the claim theorems applied at concrete runs. -/

/-- Witness for claim C1 at a concrete run. -/
theorem copy_skips_existing_witness :
    resolveSourceThemes stSkip.temp = Except.ok srcSkip ∧
    ("twentyseventeen", FSEntry.file "new" 2) ∈ srcSkip ∧
    findEntry "twentyseventeen" (stSkip.themes.getD []) = some (FSEntry.file "old" 1) ∧
    (∃ d2, ((copy_themes stSkip).1).themes = some d2 ∧
      findEntry "twentyseventeen" d2 = some (FSEntry.file "old" 1) ∧
      Msg.skipping "twentyseventeen" ∈ ((copy_themes stSkip).1).log) :=
  ⟨rfl, List.mem_singleton.mpr rfl, rfl,
    copy_skips_existing stSkip "twentyseventeen" (FSEntry.file "old" 1)
      (FSEntry.file "new" 2) srcSkip rfl (List.mem_singleton.mpr rfl) rfl⟩

/-- Witness for claim C2 at a concrete run. -/
theorem copy_new_entry_witness :
    resolveSourceThemes stNew.temp = Except.ok srcNew ∧
    (srcNew.map Prod.fst).Nodup ∧
    ("twentytwenty", FSEntry.dir [("style.css", FSEntry.file "body" 3)]) ∈ srcNew ∧
    findEntry "twentytwenty" (stNew.themes.getD []) = none ∧
    (∃ d2, ((copy_themes stNew).1).themes = some d2 ∧
      findEntry "twentytwenty" d2 =
        some (FSEntry.dir [("style.css", FSEntry.file "body" 3)])) :=
  ⟨rfl, by simp [srcNew], List.mem_singleton.mpr rfl, rfl,
    copy_new_entry stNew "twentytwenty"
      (FSEntry.dir [("style.css", FSEntry.file "body" 3)]) srcNew rfl
      (by simp [srcNew]) (List.mem_singleton.mpr rfl) rfl⟩

/-- Witness for claim C3 at a concrete successful run. -/
theorem success_removes_temp_witness :
    runSteps envOk st0 = (stOkFinal, none) ∧ stOkFinal.temp = none :=
  ⟨rfl, success_removes_temp envOk st0 stOkFinal rfl⟩

/-- Witness for claim C4 at a concrete failing run. -/
theorem top_level_handling_witness :
    runSteps envGitAbsent st0 = (stGitFail, some PyErr.fileNotFoundError) ∧
    (main_run envGitAbsent st0).1.log =
      stGitFail.log ++ [handleMsg PyErr.fileNotFoundError] :=
  ⟨rfl, (top_level_handling envGitAbsent st0).2.1 stGitFail
    PyErr.fileNotFoundError rfl⟩

/-- Witness for claim C6 (amended) at a concrete run. -/
theorem zsh_absent_after_cleanup_witness :
    clone_wordpress_repo envZshAbsent st0 = (st1W, none) ∧
    copy_themes st1W = (st2W, none) ∧
    clean_temp st2W = (st3W, none) ∧
    envZshAbsent.zshPresent = false ∧
    ((main_run envZshAbsent st0).1.temp = none ∧
      (main_run envZshAbsent st0).1.themes = st2W.themes ∧
      (main_run envZshAbsent st0).1.themesPermsFixed = st0.themesPermsFixed ∧
      Msg.missingTool ∈ (main_run envZshAbsent st0).1.log) :=
  ⟨rfl, rfl, rfl, rfl,
    zsh_absent_after_cleanup envZshAbsent st0 st1W st2W st3W rfl rfl rfl rfl⟩

/-- Witness for claim C7 at a concrete run. -/
theorem git_absent_keeps_destination_witness :
    envGitAbsent.gitPresent = false ∧
    (Msg.missingTool ∈ (main_run envGitAbsent st0).1.log ∧
      (main_run envGitAbsent st0).1.themes = st0.themes ∧
      (main_run envGitAbsent st0).1.temp = st0.temp) :=
  ⟨rfl, git_absent_keeps_destination envGitAbsent st0 rfl⟩

/-- Witness for claim C8: one concrete fetch failure and one concrete
permission-fix failure. -/
theorem no_cleanup_needed_on_failure_witness :
    st0.temp = none ∧
    clone_wordpress_repo envGitAbsent st0 = (stGitFail, some PyErr.fileNotFoundError) ∧
    (main_run envGitAbsent st0).1.temp = none ∧
    fix_theme_permissions envZshAbsent st3W = (st4W, some PyErr.fileNotFoundError) ∧
    ((main_run envZshAbsent st0).1.temp = none ∧
      (main_run envZshAbsent st0).1.themes = st2W.themes) :=
  ⟨rfl, rfl,
    (no_cleanup_needed_on_failure envGitAbsent st0).1 rfl stGitFail
      PyErr.fileNotFoundError rfl,
    rfl,
    (no_cleanup_needed_on_failure envZshAbsent st0).2 st1W st2W st3W st4W
      PyErr.fileNotFoundError rfl rfl rfl rfl⟩

/-- Witness for claim C10 at a concrete run whose clone lacks the themes
subdirectory. -/
theorem missing_source_is_missing_tool_witness :
    clone_wordpress_repo envEmptyClone st0 = (stEmptyClone, none) ∧
    resolveSourceThemes stEmptyClone.temp = Except.error PyErr.fileNotFoundError ∧
    ((main_run envEmptyClone st0).1.log =
        stEmptyClone.log ++ [Msg.copying, Msg.missingTool] ∧
      (main_run envEmptyClone st0).1.themes = some (st0.themes.getD [])) :=
  ⟨rfl, rfl,
    missing_source_is_missing_tool envEmptyClone st0 stEmptyClone rfl rfl⟩

end CloneThemes
